import Mathlib

/-!
Verification of the natural-language specification of `molecular_builder`
against a shallow embedding of `src/molecular_builder/core.py`.

Numbers: the Python code computes with floats; the embedding uses `ℚ`.
`np.sin(np.radians x)` is an external numeric routine and is passed in as an
abstract function `sind : ℚ → ℚ`; all claims treated here are independent of
its concrete values (positivity of the relevant sines appears as a hypothesis
where monotonicity needs it).

External collaborators (the ase crystallography toolkit, the LAMMPS `Prism`,
the HTTP transport, the `packmol` binary) are out of scope per the spec and
enter the embedding as abstract parameters; everything `core.py` itself does
with their results is translated faithfully.
-/

namespace MolecularBuilder

/-- Modelled from the spec: one entry of the static crystal table
(`src/molecular_builder/crystals.py` is absent from `src/`).  Per spec section 3,
a `CrystalSpec` carries lattice constants `a, b, c` and angles `alpha, beta,
gamma`; the elements, basis positions and spacegroup id are consumed only by the
external spacegroup generator and are abstracted into it. -/
structure CrystalSpec where
  a : ℚ
  b : ℚ
  c : ℚ
  alpha : ℚ
  beta : ℚ
  gamma : ℚ
deriving DecidableEq

/-- The 3x3 cell matrix of a structure, entry `eIJ` at row `I`, column `J`. -/
structure Cell where
  e00 : ℚ
  e01 : ℚ
  e02 : ℚ
  e10 : ℚ
  e11 : ℚ
  e12 : ℚ
  e20 : ℚ
  e21 : ℚ
  e22 : ℚ
deriving DecidableEq

/-- An ase `Atoms` object: an ordered atom list (atoms abstracted to a type
parameter) together with its cell matrix. -/
structure Structure (α : Type) where
  atoms : List α
  cell : Cell
deriving DecidableEq

/-- Errors raised by `create_bulk_crystal`: the explicit `raise ValueError` for an
unknown rounding mode (line 39), and the `TypeError` Python raises on line 37 when
`round(i)` is evaluated while the name `round` is bound to the string argument. -/
inductive BuildErr where
  | valueError
  | typeError
deriving DecidableEq

/-- Line 31 of core.py: `repeats = [lx/a, ly/b/np.sin(np.radians(gamma)),
lz/c/np.sin(np.radians(alpha))/np.sin(np.radians(beta))]`. -/
def rawRepeats (crystal : CrystalSpec) (size : ℚ × ℚ × ℚ) (sind : ℚ → ℚ) : ℚ × ℚ × ℚ :=
  (size.1 / crystal.a,
   size.2.1 / crystal.b / sind crystal.gamma,
   size.2.2 / crystal.c / sind crystal.alpha / sind crystal.beta)

/-- Lines 31-39 of core.py: the raw repeat factors followed by the rounding
branches.  `int(np.ceil i)` and `int(np.floor i)` are `⌈i⌉` and `⌊i⌋` (the `int`
conversion is exact on the integral values `ceil`/`floor` return).  In the branch
`round == "round"`, the expression `int(round(i))` calls the *string* bound to the
parameter `round`, so Python raises `TypeError`; the final `else` raises
`ValueError`. -/
def computeRepeats (crystal : CrystalSpec) (size : ℚ × ℚ × ℚ) (round : String)
    (sind : ℚ → ℚ) : Except BuildErr (ℤ × ℤ × ℤ) :=
  let repeats := rawRepeats crystal size sind
  if round = "up" then
    Except.ok (⌈repeats.1⌉, ⌈repeats.2.1⌉, ⌈repeats.2.2⌉)
  else if round = "down" then
    Except.ok (⌊repeats.1⌋, ⌊repeats.2.1⌋, ⌊repeats.2.2⌋)
  else if round = "round" then
    Except.error BuildErr.typeError
  else
    Except.error BuildErr.valueError

/-- The six values `xhi, yhi, zhi, xy, xz, yz` returned on line 53 of core.py by
the external `Prism(...).get_lammps_prism()`; the tilt factors are `Option` to
mirror the `is not None` checks on lines 59-64. -/
structure PrismOut where
  xhi : ℚ
  yhi : ℚ
  zhi : ℚ
  xy : Option ℚ
  xz : Option ℚ
  yz : Option ℚ
deriving DecidableEq

/-- Lines 54-64 of core.py: `cell = np.zeros((3, 3))`, then the three diagonal
entries `xhi - xlo, yhi - ylo, zhi - zlo` (with `xlo = ylo = zlo = 0`) and, when
present, the tilt factors at `[1,0]`, `[2,0]`, `[2,1]`.  The strictly upper
triangle is never written. -/
def makeLammpsCell (p : PrismOut) : Cell :=
  { e00 := p.xhi - 0
    e01 := 0
    e02 := 0
    e10 := match p.xy with | some v => v | none => 0
    e11 := p.yhi - 0
    e12 := 0
    e20 := match p.xz with | some v => v | none => 0
    e21 := match p.yz with | some v => v | none => 0
    e22 := p.zhi - 0 }

/-- `create_bulk_crystal` from core.py.  The table lookup `crystals[name]` is the
given `crystal` (the table itself is absent from `src/`); the external calls are
abstract parameters: `spacegroupCrystal` is `ase.spacegroup.crystal` applied to the
fixed table data and the computed repeats, `getLammpsPrism` is
`Prism(cell).get_lammps_prism()`, and `wrap` is `Atoms.wrap()`, which moves atom
positions under the (already replaced) cell and leaves the cell itself unchanged. -/
def create_bulk_crystal {α : Type} (crystal : CrystalSpec) (size : ℚ × ℚ × ℚ)
    (round : String) (sind : ℚ → ℚ)
    (spacegroupCrystal : ℤ × ℤ × ℤ → Structure α)
    (getLammpsPrism : Cell → PrismOut)
    (wrap : Cell → List α → List α) :
    Except BuildErr (Structure α) :=
  match computeRepeats crystal size round sind with
  | Except.error e => Except.error e
  | Except.ok repeats =>
    let myCrystal := spacegroupCrystal repeats
    let p := getLammpsPrism myCrystal.cell
    let cell := makeLammpsCell p
    Except.ok { atoms := wrap cell myCrystal.atoms, cell := cell }

/-- The error raised by `carve_geometry` on line 94 for a side outside
`{"in", "out"}`. -/
inductive CarveErr where
  | valueError
deriving DecidableEq

/-- `np.sum` over a boolean array: the number of true entries. -/
def countTrue : List Bool → ℕ
  | [] => 0
  | b :: bs => (if b then 1 else 0) + countTrue bs

/-- `del atoms[mask]` with a boolean mask: keep the atoms whose mask entry is
false.  Only ever used with a mask of the same length as the atom list (numpy
rejects other lengths). -/
def deleteMask {α : Type} : List α → List Bool → List α
  | a :: rest, b :: bs => if b then deleteMask rest bs else a :: deleteMask rest bs
  | _, _ => []

/-- The subsequence of atoms whose mask entry is true (the complement of
`deleteMask`). -/
def keepMask {α : Type} : List α → List Bool → List α
  | a :: rest, b :: bs => if b then a :: keepMask rest bs else keepMask rest bs
  | _, _ => []

/-- `carve_geometry` from core.py, functionally: the first component is the
returned value (count, and the carved copy when `return_carved`), the second the
final state of the caller's atoms list.  The geometry is applied once, to the
original atoms (line 87).  On the `ValueError` path the atoms are unchanged,
since the deletion on line 96 comes after the side check.  `atoms.copy()` taken
before mutation is the unmutated list itself in this functional embedding. -/
def carve_geometry {α : Type} (atoms : List α) (geometry : List α → List Bool)
    (side : String) (return_carved : Bool) :
    Except CarveErr (ℕ × Option (List α)) × List α :=
  let geometry_indices := geometry atoms
  match (if side = "in" then Except.ok geometry_indices
    else if side = "out" then Except.ok (geometry_indices.map not)
    else Except.error CarveErr.valueError : Except CarveErr (List Bool)) with
  | Except.error e => (Except.error e, atoms)
  | Except.ok delete_indices =>
    if return_carved then
      (Except.ok (countTrue delete_indices,
        some (deleteMask atoms (delete_indices.map not))),
       deleteMask atoms delete_indices)
    else
      (Except.ok (countTrue delete_indices, none), deleteMask atoms delete_indices)

/-- What the HTTP layer hands back to `fetch_prepared_system`: either
`requests.get` raises because the host is unreachable, or a response arrives with
a status code, an optional content-length header and a body.  Note a non-success
response (404, ...) is a `response`, not `unreachable`. -/
inductive NetResult where
  | unreachable
  | response (status : ℕ) (contentLength : Option ℕ) (body : String)
deriving DecidableEq

/-- Errors surfacing from `fetch_prepared_system`: the `ConnectionError` from
`requests.get`, the `TypeError` from `int(None)` when the content-length header is
absent (line 122), and the parse failure from `ase.io.read` (line 131). -/
inductive FetchErr where
  | networkError
  | typeError
  | parseError
deriving DecidableEq

/-- `fetch_prepared_system` from core.py with the HTTP transport abstracted to a
`NetResult` and `ase.io.read` to a parse function.  The code never examines the
response status: after `requests.get` returns, it reads the content-length header
(`int(r.headers.get(..))` raises `TypeError` when the header is missing), streams
the body into a temporary file and parses it as lammps data. -/
def fetch_prepared_system {α : Type} (net : NetResult)
    (parseLammpsData : String → Option (List α)) : Except FetchErr (List α) :=
  match net with
  | NetResult.unreachable => Except.error FetchErr.networkError
  | NetResult.response _status contentLength body =>
    match contentLength with
    | none => Except.error FetchErr.typeError
    | some _total_length =>
      match parseLammpsData body with
      | none => Except.error FetchErr.parseError
      | some atoms => Except.ok atoms

/-- The external side effects of `pack_water`, in program order. -/
inductive PackEff where
  | mkTempDir
  | chdir
  | writeAtomsFile
  | copyWaterTemplate
  | runLs
  | writeInputScript
  | runPackmol
  | readOutputFile
deriving DecidableEq

/-- Errors surfacing from `pack_water`: the explicit `ValueError` of line 161, the
`OSError` the except-branch of lines 207-208 would raise, and the
`FileNotFoundError` `ase.io.read` raises on line 211 when `out.pdb` was never
produced. -/
inductive PackErr where
  | valueError
  | osError
  | fileNotFoundError
deriving DecidableEq

/-- `os.system`: runs the shell and returns its exit status (127 when the command
is not found).  It raises no exception when the program is missing, hence the
`Empty` error type: the try/except around it in `pack_water` can never catch
anything on this path. -/
def os_system (commandSucceeds : Bool) : Except Empty ℕ :=
  Except.ok (if commandSucceeds then 0 else 127)

/-- `pack_water` from core.py.  The geometry type is abstract; `bboxGeometry`
stands for the `BoxGeometry` built from the bounding box of the atoms (with the
pbc shrink) on lines 163-171 (`geometry.py` is absent from `src/`),
`packmolWritesOutput` for whether the external packmol binary is installed, exits
normally and writes `out.pdb`, `readOutput` for the structure `ase.io.read`
parses from that file, and `geometryMask` for the call `geometry(atoms)` on
line 215.  The second component records the external side effects in order; the
`ValueError` of line 161 is raised before any of them.  The except branch around
`os.system` is the `Empty` elimination: `os.system` returns an exit status
instead of raising, so the `OSError` of line 208 is unreachable and a missing
packmol surfaces later as a `FileNotFoundError` on reading `out.pdb`. -/
def pack_water {α γ : Type} (number : ℕ) (atoms : Option (List α))
    (geometry : Option γ) (side : String) (pbc : Bool) (return_water : Bool)
    (tolerance : ℚ) (bboxGeometry : List α → Bool → γ)
    (packmolWritesOutput : Bool) (readOutput : List α)
    (geometryMask : γ → Option (List α) → List Bool) :
    Except PackErr (List α × Option (List α)) × List PackEff :=
  let _side := side ++ "side"
  let _number := number
  let _tolerance := tolerance
  match atoms, geometry with
  | none, none => (Except.error PackErr.valueError, [])
  | atomsArg, geometryArg =>
    let geo : γ := match geometryArg, atomsArg with
      | some g, _ => g
      | none, some ats => bboxGeometry ats pbc
      | none, none => bboxGeometry [] pbc
    let effs := [PackEff.mkTempDir, PackEff.chdir]
      ++ (if atomsArg.isSome then [PackEff.writeAtomsFile] else [])
      ++ [PackEff.copyWaterTemplate, PackEff.runLs, PackEff.writeInputScript]
    match os_system packmolWritesOutput with
    | Except.error e => e.elim
    | Except.ok _exitStatus =>
      let effs := effs ++ [PackEff.runPackmol]
      if packmolWritesOutput then
        let solid_and_water := readOutput
        let effs := effs ++ [PackEff.readOutputFile]
        if return_water then
          let water := deleteMask solid_and_water (geometryMask geo atomsArg)
          (Except.ok (solid_and_water, some water), effs)
        else
          (Except.ok (solid_and_water, none), effs)
      else
        (Except.error PackErr.fileNotFoundError, effs)

/-- The atoms on the deleted side, as claim C6 states it: with side "in" the atoms
whose geometry mask entry is true, with any other (already validated) side those
whose entry is false. -/
def deletedSide {α : Type} (atoms : List α) (mask : List Bool) (side : String) : List α :=
  if side = "in" then keepMask atoms mask else keepMask atoms (mask.map not)

/-- Claim C8 reading of the raw repeat factors: requested length over the lattice
constant, the second axis further divided by the sine of gamma, the third by the
product of the sines of alpha and beta. -/
def rawRepeats_claim (crystal : CrystalSpec) (size : ℚ × ℚ × ℚ)
    (sind : ℚ → ℚ) : ℚ × ℚ × ℚ :=
  (size.1 / crystal.a,
   size.2.1 / (crystal.b * sind crystal.gamma),
   size.2.2 / (crystal.c * (sind crystal.alpha * sind crystal.beta)))

/-- A concrete crystal entry for witnesses: unit cubic cell. -/
def cubicW : CrystalSpec := ⟨1, 1, 1, 90, 90, 90⟩

/-- A concrete cell for the witness spacegroup generator. -/
def cellW : Cell := ⟨1, 0, 0, 0, 1, 0, 0, 0, 1⟩

/-- A concrete prism output for witnesses, with one absent tilt factor. -/
def prismW : PrismOut := ⟨1, 2, 3, some 1, none, some 2⟩

/-- A concrete stand-in for the external spacegroup generator. -/
def genW : ℤ × ℤ × ℤ → Structure Unit := fun _ => { atoms := [()], cell := cellW }

/-- The structure the witness build returns. -/
def sW : Structure Unit := { atoms := [()], cell := makeLammpsCell prismW }

/-- A concrete geometry for witnesses: atoms with even label are inside. -/
def gW : List ℕ → List Bool := fun l => l.map (fun a => decide (a % 2 = 0))

/-- A second concrete geometry agreeing with gW on the witness atom list while
differing as a function. -/
def g2W : List ℕ → List Bool := fun l => l.map (fun a => decide (a ≠ 1 ∧ a ≠ 3))

theorem countTrue_add_countTrue_not (l : List Bool) :
    countTrue l + countTrue (l.map not) = l.length := by
  induction l with
  | nil => rfl
  | cons b bs ih => cases b <;> simp [countTrue] <;> omega

theorem deleteMask_add_keepMask_length {α : Type} (atoms : List α) (mask : List Bool)
    (h : mask.length = atoms.length) :
    (deleteMask atoms mask).length + (keepMask atoms mask).length = atoms.length := by
  induction atoms generalizing mask with
  | nil => cases mask <;> simp [deleteMask, keepMask]
  | cons a rest ih =>
    cases mask with
    | nil => simp at h
    | cons b bs =>
      simp only [List.length_cons] at h
      have hb : bs.length = rest.length := by omega
      cases b <;> simp [deleteMask, keepMask] <;> have := ih bs hb <;> omega

theorem deleteMask_map_not {α : Type} (atoms : List α) (mask : List Bool) :
    deleteMask atoms (mask.map not) = keepMask atoms mask := by
  induction atoms generalizing mask with
  | nil => cases mask <;> rfl
  | cons a rest ih =>
    cases mask with
    | nil => rfl
    | cons b bs => cases b <;> simp [deleteMask, keepMask, ih]

theorem countTrue_eq_keepMask_length {α : Type} (atoms : List α) (mask : List Bool)
    (h : mask.length = atoms.length) :
    countTrue mask = (keepMask atoms mask).length := by
  induction atoms generalizing mask with
  | nil => cases mask with
    | nil => rfl
    | cons b bs => simp at h
  | cons a rest ih =>
    cases mask with
    | nil => simp at h
    | cons b bs =>
      simp only [List.length_cons] at h
      have hb : bs.length = rest.length := by omega
      cases b with
      | true => simp [countTrue, keepMask, ih bs hb]; omega
      | false => simp [countTrue, keepMask, ih bs hb]

/-- Claim C1: for every crystal table entry, every positive size vector and every
valid rounding mode, a Structure returned by create_bulk_crystal has a cell matrix
whose strictly upper triangular entries (positions [0,1], [0,2], [1,2]) are zero. -/
theorem create_bulk_crystal_cell_upper_zero {α : Type} (crystal : CrystalSpec)
    (size : ℚ × ℚ × ℚ) (round : String) (sind : ℚ → ℚ)
    (spacegroupCrystal : ℤ × ℤ × ℤ → Structure α) (getLammpsPrism : Cell → PrismOut)
    (wrap : Cell → List α → List α) (s : Structure α)
    (_hround : round = "up" ∨ round = "down" ∨ round = "round")
    (_hsize : 0 < size.1 ∧ 0 < size.2.1 ∧ 0 < size.2.2)
    (hbuild : create_bulk_crystal crystal size round sind spacegroupCrystal
      getLammpsPrism wrap = Except.ok s) :
    s.cell.e01 = 0 ∧ s.cell.e02 = 0 ∧ s.cell.e12 = 0 := by
  unfold create_bulk_crystal at hbuild
  cases hrep : computeRepeats crystal size round sind with
  | error e => rw [hrep] at hbuild; exact Except.noConfusion hbuild
  | ok repeats =>
    rw [hrep] at hbuild
    simp only [Except.ok.injEq] at hbuild
    subst hbuild
    simp [makeLammpsCell]

/-- Witness for C1: the upper triangular entries are zero for a concrete build. -/
theorem create_bulk_crystal_cell_upper_zero_witness :
    sW.cell.e01 = 0 ∧ sW.cell.e02 = 0 ∧ sW.cell.e12 = 0 :=
  create_bulk_crystal_cell_upper_zero cubicW (20, 20, 20) "up" (fun _ => 1) genW
    (fun _ => prismW) (fun _ l => l) sW (Or.inl rfl) (by norm_num)
    (by simp [create_bulk_crystal, computeRepeats, rawRepeats, cubicW, genW, sW])

/-- Claim C2: carving side "in" and side "out" with the same geometry on two
copies of the same structure removes complementary atom sets: the two returned
counts add up to the total atom count. -/
theorem carve_geometry_partition {α : Type} (atoms : List α)
    (geometry : List α → List Bool)
    (hlen : (geometry atoms).length = atoms.length)
    (cIn cOut : ℕ) (oIn oOut : Option (List α))
    (hin : (carve_geometry atoms geometry "in" false).1 = Except.ok (cIn, oIn))
    (hout : (carve_geometry atoms geometry "out" false).1 = Except.ok (cOut, oOut)) :
    cIn + cOut = atoms.length := by
  simp [carve_geometry] at hin hout
  have hsum := countTrue_add_countTrue_not (geometry atoms)
  rw [hlen] at hsum
  omega

/-- Witness for C2 on a four-atom structure, two atoms inside the geometry. -/
theorem carve_geometry_partition_witness : 2 + 2 = [0, 1, 2, 3].length :=
  carve_geometry_partition [0, 1, 2, 3] gW (by decide) 2 2 none none rfl rfl

/-- Claim C3 (code bug): with rounding mode "round", create_bulk_crystal raises
TypeError instead of rounding each raw repeat factor to the nearest integer,
because the parameter named round shadows the Python builtin, so int(round(i))
calls the string "round".  An argument outside the three modes does raise
ValueError, as the claim says. -/
theorem create_bulk_crystal_round_mode_bug :
    create_bulk_crystal (α := Unit) cubicW (20, 20, 20) "round" (fun _ => 1) genW
      (fun _ => prismW) (fun _ l => l) = Except.error BuildErr.typeError ∧
    create_bulk_crystal (α := Unit) cubicW (20, 20, 20) "sideways" (fun _ => 1) genW
      (fun _ => prismW) (fun _ l => l) = Except.error BuildErr.valueError :=
  ⟨rfl, rfl⟩

/-- Claim C4 counterexample: a reachable remote answering 404 with a body that is
not well-formed atomic data makes fetch_prepared_system fail with a parse error,
not a network error: the status code is never examined. -/
theorem fetch_prepared_system_404_counterexample :
    fetch_prepared_system (α := Unit) (NetResult.response 404 (some 100) "not found")
      (fun _ => none) = Except.error FetchErr.parseError ∧
    fetch_prepared_system (α := Unit) (NetResult.response 404 (some 100) "not found")
      (fun _ => none) ≠ Except.error FetchErr.networkError := by
  refine ⟨rfl, ?_⟩
  intro h
  simp [fetch_prepared_system] at h

/-- Claim C4 amended: fetch_prepared_system fails with a network error exactly
when the remote host is unreachable; when the host responds, the HTTP status is
never examined, so a non-success response is downloaded anyway and the failure
surfaces from the content-length read or the parser. -/
theorem fetch_prepared_system_network_error_iff {α : Type} (net : NetResult)
    (parseLammpsData : String → Option (List α)) :
    fetch_prepared_system net parseLammpsData = Except.error FetchErr.networkError ↔
      net = NetResult.unreachable := by
  cases net with
  | unreachable => simp [fetch_prepared_system]
  | response status contentLength body =>
    cases contentLength with
    | none => simp [fetch_prepared_system]
    | some n =>
      cases hp : parseLammpsData body <;> simp [fetch_prepared_system, hp]

/-- Claim C5 (code bug): with packmol absent, pack_water does not fail with the
OSError naming packmol and its installation instructions; os.system returns exit
status 127 without raising, the except branch stays dead, and the call fails with
FileNotFoundError when ase.io.read opens the never-written out.pdb. -/
theorem pack_water_missing_packmol_bug :
    (pack_water (α := Unit) (γ := Unit) 50 none (some ()) "in" false false 2
      (fun _ _ => ()) false [] (fun _ _ => [])).1 = Except.error PackErr.fileNotFoundError ∧
    (pack_water (α := Unit) (γ := Unit) 50 none (some ()) "in" false false 2
      (fun _ _ => ()) false [] (fun _ _ => [])).1 ≠ Except.error PackErr.osError := by
  refine ⟨rfl, ?_⟩
  intro h
  rw [show (pack_water (α := Unit) (γ := Unit) 50 none (some ()) "in" false false 2
    (fun _ _ => ()) false [] (fun _ _ => [])).1 = Except.error PackErr.fileNotFoundError
    from rfl] at h
  simp at h

/-- Claim C6 (with the single-evaluation aspect): carving with return_carved true
returns a count and carved fragment with remainder and fragment lengths summing to
the pre-carve total, the fragment being exactly the atoms on the deleted side, the
count being the fragment size; and the result depends on the geometry only through
its single application to the original atoms (so a second evaluation, e.g. on the
mutated structure, cannot occur). -/
theorem carve_geometry_return_carved {α : Type} (atoms : List α)
    (geometry : List α → List Bool) (side : String) (c : ℕ) (carved rest : List α)
    (hside : side = "in" ∨ side = "out")
    (hlen : (geometry atoms).length = atoms.length)
    (hcarve : carve_geometry atoms geometry side true =
      (Except.ok (c, some carved), rest)) :
    rest.length + carved.length = atoms.length ∧
    carved = deletedSide atoms (geometry atoms) side ∧
    c = carved.length ∧
    ∀ geometry2 : List α → List Bool, geometry2 atoms = geometry atoms →
      carve_geometry atoms geometry2 side true =
        carve_geometry atoms geometry side true := by
  rcases hside with h | h <;> subst h
  · simp [carve_geometry] at hcarve
    obtain ⟨⟨hc, hcarved⟩, hrest⟩ := hcarve
    have hkeep := deleteMask_map_not atoms (geometry atoms)
    have hsum := deleteMask_add_keepMask_length atoms (geometry atoms) hlen
    have hcount := countTrue_eq_keepMask_length atoms (geometry atoms) hlen
    refine ⟨?_, ?_, ?_, ?_⟩
    · rw [← hrest, ← hcarved, hkeep]; exact hsum
    · rw [← hcarved, hkeep]; simp [deletedSide]
    · rw [← hc, ← hcarved, hkeep]; exact hcount
    · intro geometry2 hg2; simp [carve_geometry, hg2]
  · simp [carve_geometry] at hcarve
    obtain ⟨⟨hc, hcarved⟩, hrest⟩ := hcarve
    have hlen2 : ((geometry atoms).map not).length = atoms.length := by
      simpa using hlen
    have hkeep := deleteMask_map_not atoms ((geometry atoms).map not)
    simp only [List.map_map] at hkeep
    have hsum := deleteMask_add_keepMask_length atoms ((geometry atoms).map not) hlen2
    have hcount := countTrue_eq_keepMask_length atoms ((geometry atoms).map not) hlen2
    refine ⟨?_, ?_, ?_, ?_⟩
    · rw [← hrest, ← hcarved, hkeep]; exact hsum
    · rw [← hcarved, hkeep]; simp [deletedSide]
    · rw [← hc, ← hcarved, hkeep]; exact hcount
    · intro geometry2 hg2; simp [carve_geometry, hg2]

/-- Witness for C6 at a concrete carve: fragment [0, 2], remainder [1, 3], and a
second geometry agreeing on the original atoms gives the same carve. -/
theorem carve_geometry_return_carved_witness :
    [1, 3].length + [0, 2].length = [0, 1, 2, 3].length ∧
    [0, 2] = deletedSide [0, 1, 2, 3] (gW [0, 1, 2, 3]) "in" ∧
    2 = [0, 2].length ∧
    carve_geometry [0, 1, 2, 3] g2W "in" true = carve_geometry [0, 1, 2, 3] gW "in" true := by
  have h := carve_geometry_return_carved [0, 1, 2, 3] gW "in" 2 [0, 2] [1, 3]
    (Or.inl rfl) (by decide) (by rfl)
  exact ⟨h.1, h.2.1, h.2.2.1, h.2.2.2 g2W (by decide)⟩

/-- Claim C7: for every crystal with positive lattice constants and positive
sines of its angles, and every rounding mode among up, down and round, whenever
the repeat counts are computed for two size requests, componentwise larger sizes
give componentwise larger (or equal) integer repeat counts.  In mode "round" the
computation always raises TypeError, so the statement holds vacuously there. -/
theorem computeRepeats_monotone (crystal : CrystalSpec) (s t : ℚ × ℚ × ℚ)
    (round : String) (sind : ℚ → ℚ) (r r2 : ℤ × ℤ × ℤ)
    (ha : 0 < crystal.a) (hb : 0 < crystal.b) (hc : 0 < crystal.c)
    (hga : 0 < sind crystal.gamma) (hal : 0 < sind crystal.alpha)
    (hbe : 0 < sind crystal.beta)
    (_hround : round = "up" ∨ round = "down" ∨ round = "round")
    (h1 : s.1 ≤ t.1) (h2 : s.2.1 ≤ t.2.1) (h3 : s.2.2 ≤ t.2.2)
    (e1 : computeRepeats crystal s round sind = Except.ok r)
    (e2 : computeRepeats crystal t round sind = Except.ok r2) :
    r.1 ≤ r2.1 ∧ r.2.1 ≤ r2.2.1 ∧ r.2.2 ≤ r2.2.2 := by
  have d1 : s.1 / crystal.a ≤ t.1 / crystal.a := (div_le_div_iff_of_pos_right ha).mpr h1
  have d2 : s.2.1 / crystal.b / sind crystal.gamma ≤
      t.2.1 / crystal.b / sind crystal.gamma :=
    (div_le_div_iff_of_pos_right hga).mpr ((div_le_div_iff_of_pos_right hb).mpr h2)
  have d3 : s.2.2 / crystal.c / sind crystal.alpha / sind crystal.beta ≤
      t.2.2 / crystal.c / sind crystal.alpha / sind crystal.beta :=
    (div_le_div_iff_of_pos_right hbe).mpr ((div_le_div_iff_of_pos_right hal).mpr
      ((div_le_div_iff_of_pos_right hc).mpr h3))
  rcases _hround with h | h | h <;> subst h
  · simp [computeRepeats, rawRepeats] at e1 e2
    rw [← e1, ← e2]
    exact ⟨Int.ceil_mono d1, Int.ceil_mono d2, Int.ceil_mono d3⟩
  · simp [computeRepeats, rawRepeats] at e1 e2
    rw [← e1, ← e2]
    exact ⟨Int.floor_mono d1, Int.floor_mono d2, Int.floor_mono d3⟩
  · simp [computeRepeats] at e1

/-- Witness for C7: a unit cubic crystal, sizes (1,1,1) and (2,2,2), mode "up". -/
theorem computeRepeats_monotone_witness : (1 : ℤ) ≤ 2 ∧ (1 : ℤ) ≤ 2 ∧ (1 : ℤ) ≤ 2 :=
  computeRepeats_monotone cubicW (1, 1, 1) (2, 2, 2) "up" (fun _ => 1) (1, 1, 1)
    (2, 2, 2) (by norm_num [cubicW]) (by norm_num [cubicW]) (by norm_num [cubicW])
    (by norm_num) (by norm_num) (by norm_num) (Or.inl rfl)
    (by norm_num) (by norm_num) (by norm_num)
    (by simp [computeRepeats, rawRepeats, cubicW])
    (by simp [computeRepeats, rawRepeats, cubicW])

/-- Claim C8: the raw repeat factors computed on line 31 of core.py coincide with
the per-axis formula of the claim. -/
theorem rawRepeats_matches_claim (crystal : CrystalSpec) (size : ℚ × ℚ × ℚ)
    (sind : ℚ → ℚ) :
    rawRepeats crystal size sind = rawRepeats_claim crystal size sind := by
  unfold rawRepeats rawRepeats_claim
  simp [div_div, mul_assoc]

/-- Claim C9: with both atoms and geometry absent, pack_water raises ValueError
with an empty external-effect trace: the check precedes every external side
effect. -/
theorem pack_water_no_input_error {α γ : Type} (number : ℕ) (side : String)
    (pbc return_water : Bool) (tolerance : ℚ) (bboxGeometry : List α → Bool → γ)
    (packmolWritesOutput : Bool) (readOutput : List α)
    (geometryMask : γ → Option (List α) → List Bool) :
    pack_water number (none : Option (List α)) (none : Option γ) side pbc
      return_water tolerance bboxGeometry packmolWritesOutput readOutput
      geometryMask = (Except.error PackErr.valueError, []) := rfl

/-- Claim C10: a side outside "in" and "out" makes carve_geometry raise
ValueError and leaves the atom list unchanged, for both values of return_carved. -/
theorem carve_geometry_bad_side {α : Type} (atoms : List α)
    (geometry : List α → List Bool) (side : String) (return_carved : Bool)
    (hin : side ≠ "in") (hout : side ≠ "out") :
    carve_geometry atoms geometry side return_carved =
      (Except.error CarveErr.valueError, atoms) := by
  simp [carve_geometry, hin, hout]

/-- Witness for C10 with side "inside". -/
theorem carve_geometry_bad_side_witness :
    carve_geometry [0, 1, 2] gW "inside" true = (Except.error CarveErr.valueError, [0, 1, 2]) :=
  carve_geometry_bad_side [0, 1, 2] gW "inside" true (by decide) (by decide)

end MolecularBuilder
